import Mathlib

/-!
Verification of the typed value codec and overload-resolution dispatch layer of
the Concourse Python driver (concourse-driver-python).

The development shallowly embeds the relevant source functions:

* `concourse/utils.py`: `python_to_thrift`, `thrift_to_python`, `thriftify`,
  `pythonify`, `find_in_kwargs_by_alias`, `require_kwarg`, `kwarg_aliases`;
* `concourse/types.py`: `Tag`, `Link`;
* `concourse/concourse.py`: the keyword-argument dispatch chains of
  `get`, `clear`, `audit`, `chronologize`, `diff`, `verify_and_swap`, and the
  result post-processing of `audit` and `chronologize`.

Modelling conventions:

* Python `bytes` produced by `struct.pack` are `List Nat` (one entry per byte,
  each below 256); big-endian packing and unpacking are implemented explicitly
  with two-complement conversion where the format is signed.
* UTF-8 byte strings produced by `bytes(s, "utf-8")` are carried as the string
  they encode (`Pay.text`); `.decode("utf-8")` on such a payload returns the
  string, matching the Python library round trip.
* Python dynamic values are the inductive `PyObj`; dictionaries are ordered
  association lists, matching insertion-ordered Python dicts.  Sets are not
  given a separate constructor: the driver immediately converts them to lists,
  and no claim distinguishes them.
* Exceptions are `Except`/`Option` results: `none`/`.error` means the source
  raises at that point.
-/

/-! ## Big-endian byte strings and two-complement packing (`struct.pack`) -/

/-- Big-endian byte string of width `w` for the natural number `n`
(the low `w` bytes of `n`, most significant first). -/
def beBytes : Nat → Nat → List Nat
  | 0, _ => []
  | w + 1, n => beBytes w (n / 256) ++ [n % 256]

/-- Value of a big-endian byte string. -/
def beVal (bs : List Nat) : Nat :=
  bs.foldl (fun acc b => acc * 256 + b) 0

theorem beVal_append_one (bs : List Nat) (b : Nat) :
    beVal (bs ++ [b]) = beVal bs * 256 + b := by
  simp [beVal, List.foldl_append]

theorem beBytes_length (w n : Nat) : (beBytes w n).length = w := by
  induction w generalizing n with
  | zero => rfl
  | succ w ih => simp [beBytes, ih]

theorem beVal_beBytes (w n : Nat) (h : n < 256 ^ w) : beVal (beBytes w n) = n := by
  induction w generalizing n with
  | zero => simp [beBytes, beVal]; omega
  | succ w ih =>
      have hdiv : n / 256 < 256 ^ w := by
        rw [Nat.div_lt_iff_lt_mul (by norm_num)]
        calc n < 256 ^ (w + 1) := h
        _ = 256 ^ w * 256 := by ring
      rw [beBytes, beVal_append_one, ih _ hdiv]
      omega

/-- Two-complement encoding of an integer into `[0, full)` where `full` is the
even power of two of the format width (`2^32` or `2^64`). -/
def toTwos (full : Nat) (v : Int) : Nat := (v % (full : Int)).toNat

/-- Two-complement decoding from `[0, full)`; `half = full / 2`. -/
def fromTwos (half full : Nat) (n : Nat) : Int :=
  if n < half then (n : Int) else (n : Int) - (full : Nat)

theorem toTwos_lt_of_pos (full : Nat) (v : Int) (h : 0 < full) :
    toTwos full v < full := by
  unfold toTwos
  have h1 : (0 : Int) < (full : Int) := by exact_mod_cast h
  have h2 := Int.emod_lt_of_pos v (b := (full : Int)) h1
  omega

theorem fromTwos_toTwos_32 (v : Int) (h1 : -(2 ^ 31) ≤ v) (h2 : v < 2 ^ 31) :
    fromTwos (2 ^ 31) (2 ^ 32) (toTwos (2 ^ 32) v) = v := by
  unfold fromTwos toTwos
  split <;> omega

theorem fromTwos_toTwos_64 (v : Int) (h1 : -(2 ^ 63) ≤ v) (h2 : v < 2 ^ 63) :
    fromTwos (2 ^ 63) (2 ^ 64) (toTwos (2 ^ 64) v) = v := by
  unfold fromTwos toTwos
  split <;> omega

/-! ## Payloads and `struct` calls

`struct.pack` raises `struct.error` when a signed integer does not fit the
requested width, so the packers return `Option`.  `struct.unpack_from` reads a
prefix of the buffer and raises when the buffer is too short. -/

/-- A thrift payload: either raw bytes (from `struct.pack`) or the UTF-8 bytes
of a string (from `bytes(s, "utf-8")`), carried abstractly as the string. -/
inductive Pay where
  | bytes (bs : List Nat)
  | text (s : String)
deriving DecidableEq

/-- Concrete byte view of a payload; the UTF-8 bytes of text payloads. -/
def Pay.toBytes : Pay → List Nat
  | .bytes bs => bs
  | .text s => s.toUTF8.toList.map (fun b => b.toNat)

/-- Model of `struct.pack(">i", v)`: 4 big-endian two-complement bytes, or
`struct.error` when `v` does not fit a signed 32-bit integer. -/
def struct_pack_i (v : Int) : Option (List Nat) :=
  if -(2 ^ 31) ≤ v ∧ v < 2 ^ 31 then some (beBytes 4 (toTwos (2 ^ 32) v)) else none

/-- Model of `struct.pack(">q", v)`: 8 big-endian two-complement bytes, or
`struct.error` when `v` does not fit a signed 64-bit integer. -/
def struct_pack_q (v : Int) : Option (List Nat) :=
  if -(2 ^ 63) ≤ v ∧ v < 2 ^ 63 then some (beBytes 8 (toTwos (2 ^ 64) v)) else none

/-- Model of `struct.pack(">d", x)` where the float `x` is represented by its
IEEE-754 bit pattern: 8 big-endian bytes of the pattern. -/
def struct_pack_d (bits : Nat) : Option (List Nat) :=
  if bits < 2 ^ 64 then some (beBytes 8 bits) else none

/-- Model of `struct.pack(">?", b)`: one byte, 1 for true and 0 for false. -/
def struct_pack_bool (b : Bool) : List Nat :=
  [cond b 1 0]

/-- Model of `struct.unpack_from` reading `k` big-endian bytes from the front
of a payload; raises (returns `none`) when the buffer is shorter than `k`. -/
def struct_unpack_from (k : Nat) (p : Pay) : Option Nat :=
  let bs := p.toBytes
  if k ≤ bs.length then some (beVal (bs.take k)) else none

/-- Model of `data.decode("utf-8")`: text payloads decode to the string they
carry; raw bytes go through UTF-8 validation. -/
def pay_decode_utf8 (p : Pay) : Option String :=
  match p with
  | .text s => some s
  | .bytes bs => String.fromUTF8? ⟨⟨bs.map (fun n => UInt8.ofNat n)⟩⟩

/-! ## The thrift `Type` enum and `TObject`

`concourse.thriftapi.shared.ttypes.Type` is a generated integer enum with the
nine named kinds; on the wire a `TObject.type` is an integer, so values outside
the named set are possible.  `TType.other n` stands for any such unrecognized
id.  The dispatch in `thrift_to_python` compares against named constants only,
so the model never needs the concrete integer of each name. -/

inductive TType where
  | BOOLEAN
  | INTEGER
  | LONG
  | DOUBLE
  | FLOAT
  | LINK
  | TAG
  | STRING
  | NULL
  | other (n : Nat)
deriving DecidableEq

/-- `concourse.thriftapi.data.ttypes.TObject`: a payload plus a type tag, in
the field order of the constructor call `TObject(data, ttype)`. -/
structure TObject where
  data : Pay
  type : TType
deriving DecidableEq

/-! ## Python dynamic values

`PyObj` is the closed universe of Python values the driver manipulates:
scalars, `Tag` and `Link` wrappers, `bytes`, lists, insertion-ordered dicts,
and already-converted `TObject`s.  Floats are carried as IEEE-754 bit
patterns (`vdouble` for the 64-bit doubles Python uses natively). -/

mutual
inductive PyObj where
  | vnone
  | vbool (b : Bool)
  | vint (n : Int)
  | vdouble (bits : Nat)
  | vstr (s : String)
  | vtag (s : String)
  | vlink (r : Int)
  | vbytes (p : Pay)
  | vlist (xs : PyObjs)
  | vdict (es : PyObjPairs)
  | vtobj (t : TObject)
deriving DecidableEq
inductive PyObjs where
  | nil
  | cons (x : PyObj) (xs : PyObjs)
deriving DecidableEq
inductive PyObjPairs where
  | nil
  | cons (k : PyObj) (v : PyObj) (rest : PyObjPairs)
deriving DecidableEq
end

/-- Widen an IEEE-754 single-precision bit pattern to the double-precision
pattern of the same value, as Python `struct.unpack(">f", ...)` does when it
returns a host float.  Needed only for faithfulness of the FLOAT decode arm;
no claim inspects the result. -/
def f32tof64 (n : Nat) : Nat :=
  let s := n / 2 ^ 31 % 2
  let e := n / 2 ^ 23 % 2 ^ 8
  let m := n % 2 ^ 23
  if e = 255 then
    s * 2 ^ 63 + 2047 * 2 ^ 52 + m * 2 ^ 29
  else if e = 0 then
    if m = 0 then s * 2 ^ 63
    else
      let l := Nat.log2 m
      s * 2 ^ 63 + (l + 874) * 2 ^ 52 + (m - 2 ^ l) * 2 ^ (52 - l)
  else
    s * 2 ^ 63 + (e + 896) * 2 ^ 52 + m * 2 ^ 29

/-- Python truthiness (`bool(x)`), used by the `or` chains and the `if`
predicates of the dispatcher.  Containers are truthy when non-empty; the two
float zeros (+0.0 and -0.0) are falsy; thrift structs, which define neither
`__bool__` nor `__len__`, are always truthy. -/
def truthy : PyObj → Bool
  | .vnone => false
  | .vbool b => b
  | .vint n => n != 0
  | .vdouble bits => !(bits == 0 || bits == 2 ^ 63)
  | .vstr s => s != ""
  | .vtag _ => true
  | .vlink _ => true
  | .vbytes p => !p.toBytes.isEmpty
  | .vlist xs => match xs with | .nil => false | _ => true
  | .vdict es => match es with | .nil => false | _ => true
  | .vtobj _ => true

/-- `isinstance(x, int)`; Python `bool` is a subclass of `int`. -/
def isInt : PyObj → Bool
  | .vint _ => true
  | .vbool _ => true
  | _ => false

/-- `isinstance(x, str)`. -/
def isStr : PyObj → Bool
  | .vstr _ => true
  | _ => false

/-- `isinstance(x, list)`. -/
def isList : PyObj → Bool
  | .vlist _ => true
  | _ => false

/-- `isinstance(x, dict)`. -/
def isDict : PyObj → Bool
  | .vdict _ => true
  | _ => false

/-- `isinstance(x, TObject)`. -/
def isTObj : PyObj → Bool
  | .vtobj _ => true
  | _ => false

/-! ## Python string rendering (`str` and `repr`)

`python_to_thrift` falls back to `value.__str__()` for values that are not
booleans, ints, floats, `Link` or `Tag`; `str` of a list renders its elements
with `repr`.  `repr` differs from `str` only on strings (quoting) among the
types a claim evaluates; floats, bytes and thrift structs never reach a
rendering in the claims, and their arms carry fixed placeholders marked as
out of model. -/

mutual
def pyStr : PyObj → String
  | .vnone => "None"
  | .vbool b => cond b "True" "False"
  | .vint n => toString n
  | .vdouble bits => "float-bits:" ++ toString bits
  | .vstr s => s
  | .vtag s => s
  | .vlink r => "@" ++ toString r
  | .vbytes _ => "bytes-repr"
  | .vlist xs => "[" ++ pyStrElems xs ++ "]"
  | .vdict es => "\x7b" ++ pyStrPairs es ++ "\x7d"
  | .vtobj _ => "TObject-repr"
def pyStrElems : PyObjs → String
  | .nil => ""
  | .cons x rest =>
      (match x with | .vstr s => "\x27" ++ s ++ "\x27" | _ => pyStr x)
      ++ (match rest with | .nil => "" | _ => ", ")
      ++ pyStrElems rest
def pyStrPairs : PyObjPairs → String
  | .nil => ""
  | .cons k v rest =>
      (match k with | .vstr s => "\x27" ++ s ++ "\x27" | _ => pyStr k)
      ++ ": "
      ++ (match v with | .vstr s => "\x27" ++ s ++ "\x27" | _ => pyStr v)
      ++ (match rest with | .nil => "" | _ => ", ")
      ++ pyStrPairs rest
end

/-! ## The scalar codec (`utils.python_to_thrift` / `utils.thrift_to_python`) -/

/-- Python exceptions distinguished by the claims. -/
inductive PyErr where
  | typeError
  | valueError (msg : String)
deriving DecidableEq

/-- `utils.python_to_thrift(value)`, branch for branch:
booleans pack with `">?"`; ints inside the signed 32-bit range pack with
`">i"` under `Type.INTEGER` and all other ints with `">q"` under `Type.LONG`;
floats pack with `">d"` under `Type.DOUBLE`; `Link` packs its record with
`">q"` under `Type.LINK`; `Tag` emits its UTF-8 string under `Type.TAG`; every
other value, strings included, emits the UTF-8 bytes of `value.__str__()`
under `Type.STRING`.  `none` is a raised `struct.error`. -/
def python_to_thrift : PyObj → Option TObject
  | .vbool b => some ⟨.bytes (struct_pack_bool b), .BOOLEAN⟩
  | .vint v =>
      if 2147483647 < v ∨ v < -2147483648 then
        (struct_pack_q v).map (fun d => ⟨.bytes d, .LONG⟩)
      else
        (struct_pack_i v).map (fun d => ⟨.bytes d, .INTEGER⟩)
  | .vdouble bits => (struct_pack_d bits).map (fun d => ⟨.bytes d, .DOUBLE⟩)
  | .vlink r => (struct_pack_q r).map (fun d => ⟨.bytes d, .LINK⟩)
  | .vtag s => some ⟨.text s, .TAG⟩
  | v => some ⟨.text (pyStr v), .STRING⟩

/-- `utils.thrift_to_python(tobject)`, branch for branch.  Note that the
final `else` of the source covers both `Type.STRING` and every kind the chain
does not test, so unrecognized kinds decode as UTF-8 strings rather than
raising. -/
def thrift_to_python (t : TObject) : Option PyObj :=
  match t.type with
  | .BOOLEAN => (struct_unpack_from 1 t.data).map (fun n => .vbool (n != 0))
  | .INTEGER => (struct_unpack_from 4 t.data).map (fun n => .vint (fromTwos (2 ^ 31) (2 ^ 32) n))
  | .LONG => (struct_unpack_from 8 t.data).map (fun n => .vint (fromTwos (2 ^ 63) (2 ^ 64) n))
  | .DOUBLE => (struct_unpack_from 8 t.data).map (fun n => .vdouble n)
  | .FLOAT => (struct_unpack_from 4 t.data).map (fun n => .vdouble (f32tof64 n))
  | .LINK => (struct_unpack_from 8 t.data).map (fun n => .vlink (fromTwos (2 ^ 63) (2 ^ 64) n))
  | .TAG => (pay_decode_utf8 t.data).map (fun s => .vtag s)
  | .NULL => some .vnone
  | _ => (pay_decode_utf8 t.data).map (fun s => .vstr s)

/-- `types.Link.__init__`: raises `ValueError` (with no message) unless the
argument is an `int`; Python booleans are `int` instances and wrap as 1/0.
No sign restriction is present in the source. -/
def Link_init : PyObj → Except PyErr Int
  | .vint r => .ok r
  | .vbool b => .ok (cond b 1 0)
  | _ => .error (.valueError "")

/-- The values the round-trip claim quantifies over: booleans, integers in
the signed 64-bit range, doubles, `Tag`, `Link` (with a representable
identifier), and strings. -/
def Representable : PyObj → Prop
  | .vbool _ => True
  | .vint n => -(2 ^ 63) ≤ n ∧ n < 2 ^ 63
  | .vdouble bits => bits < 2 ^ 64
  | .vstr _ => True
  | .vtag _ => True
  | .vlink r => -(2 ^ 63) ≤ r ∧ r < 2 ^ 63
  | _ => False

example : (python_to_thrift (.vint 5)).bind thrift_to_python = some (.vint 5) := by decide
example : (python_to_thrift (.vint 3000000000)).bind thrift_to_python = some (.vint 3000000000) := by decide
example : (python_to_thrift (.vbool true)).bind thrift_to_python = some (.vbool true) := by decide
example : (python_to_thrift (.vlink (-7))).bind thrift_to_python = some (.vlink (-7)) := by decide

theorem struct_unpack_from_beBytes (w n : Nat) (h : n < 256 ^ w) :
    struct_unpack_from w (.bytes (beBytes w n)) = some n := by
  simp only [struct_unpack_from, Pay.toBytes]
  rw [if_pos (by rw [beBytes_length])]
  rw [List.take_of_length_le (le_of_eq (beBytes_length w n))]
  rw [beVal_beBytes w n h]

theorem toTwos_lt_256pow8 (v : Int) : toTwos (2 ^ 64) v < 256 ^ 8 := by
  have := toTwos_lt_of_pos (2 ^ 64) v (by norm_num)
  norm_num at this ⊢
  omega

theorem toTwos_lt_256pow4 (v : Int) : toTwos (2 ^ 32) v < 256 ^ 4 := by
  have := toTwos_lt_of_pos (2 ^ 32) v (by norm_num)
  norm_num at this ⊢
  omega

/-- C1.  For every representable scalar value (booleans, integers in the
signed 64-bit range, doubles, `Tag`, `Link`, strings), decoding the encoding
returns the original value: `thrift_to_python(python_to_thrift(v)) == v`. -/
theorem C1_roundtrip (v : PyObj) (h : Representable v) :
    (python_to_thrift v).bind thrift_to_python = some v := by
  cases v with
  | vbool b =>
      cases b <;> rfl
  | vint n =>
      rcases h with ⟨h1, h2⟩
      by_cases hbig : 2147483647 < n ∨ n < -2147483648
      · have hq : struct_pack_q n = some (beBytes 8 (toTwos (2 ^ 64) n)) := by
          unfold struct_pack_q
          rw [if_pos ⟨h1, h2⟩]
        have hpack : python_to_thrift (.vint n) =
            some ⟨.bytes (beBytes 8 (toTwos (2 ^ 64) n)), .LONG⟩ := by
          simp only [python_to_thrift]
          rw [if_pos hbig, hq]
          rfl
        rw [hpack]
        show (struct_unpack_from 8 (.bytes (beBytes 8 (toTwos (2 ^ 64) n)))).map
          (fun m => PyObj.vint (fromTwos (2 ^ 63) (2 ^ 64) m)) = some (.vint n)
        rw [struct_unpack_from_beBytes 8 _ (toTwos_lt_256pow8 n)]
        show some (PyObj.vint (fromTwos (2 ^ 63) (2 ^ 64) (toTwos (2 ^ 64) n))) =
          some (.vint n)
        rw [fromTwos_toTwos_64 n h1 h2]
      · push_neg at hbig
        have hi : struct_pack_i n = some (beBytes 4 (toTwos (2 ^ 32) n)) := by
          unfold struct_pack_i
          rw [if_pos ⟨by omega, by omega⟩]
        have hpack : python_to_thrift (.vint n) =
            some ⟨.bytes (beBytes 4 (toTwos (2 ^ 32) n)), .INTEGER⟩ := by
          simp only [python_to_thrift]
          rw [if_neg (by omega : ¬(2147483647 < n ∨ n < -2147483648)), hi]
          rfl
        rw [hpack]
        show (struct_unpack_from 4 (.bytes (beBytes 4 (toTwos (2 ^ 32) n)))).map
          (fun m => PyObj.vint (fromTwos (2 ^ 31) (2 ^ 32) m)) = some (.vint n)
        rw [struct_unpack_from_beBytes 4 _ (toTwos_lt_256pow4 n)]
        show some (PyObj.vint (fromTwos (2 ^ 31) (2 ^ 32) (toTwos (2 ^ 32) n))) =
          some (.vint n)
        rw [fromTwos_toTwos_32 n (by omega) (by omega)]
  | vdouble bits =>
      have hb : bits < 2 ^ 64 := h
      have hd : struct_pack_d bits = some (beBytes 8 bits) := by
        unfold struct_pack_d
        rw [if_pos hb]
      have hpack : python_to_thrift (.vdouble bits) =
          some ⟨.bytes (beBytes 8 bits), .DOUBLE⟩ := by
        simp only [python_to_thrift]
        rw [hd]
        rfl
      rw [hpack]
      show (struct_unpack_from 8 (.bytes (beBytes 8 bits))).map
        (fun m => PyObj.vdouble m) = some (.vdouble bits)
      rw [struct_unpack_from_beBytes 8 _ (by norm_num; omega)]
      rfl
  | vstr s => rfl
  | vtag s => rfl
  | vlink r =>
      rcases h with ⟨h1, h2⟩
      have hq : struct_pack_q r = some (beBytes 8 (toTwos (2 ^ 64) r)) := by
        unfold struct_pack_q
        rw [if_pos ⟨h1, h2⟩]
      have hpack : python_to_thrift (.vlink r) =
          some ⟨.bytes (beBytes 8 (toTwos (2 ^ 64) r)), .LINK⟩ := by
        simp only [python_to_thrift]
        rw [hq]
        rfl
      rw [hpack]
      show (struct_unpack_from 8 (.bytes (beBytes 8 (toTwos (2 ^ 64) r)))).map
        (fun m => PyObj.vlink (fromTwos (2 ^ 63) (2 ^ 64) m)) = some (.vlink r)
      rw [struct_unpack_from_beBytes 8 _ (toTwos_lt_256pow8 r)]
      show some (PyObj.vlink (fromTwos (2 ^ 63) (2 ^ 64) (toTwos (2 ^ 64) r))) =
        some (.vlink r)
      rw [fromTwos_toTwos_64 r h1 h2]
  | vnone => exact absurd h (by simp [Representable])
  | vbytes p => exact absurd h (by simp [Representable])
  | vlist xs => exact absurd h (by simp [Representable])
  | vdict es => exact absurd h (by simp [Representable])
  | vtobj t => exact absurd h (by simp [Representable])

/-- Witness for C1 at a concrete representable input. -/
theorem C1_roundtrip_witness :
    Representable (.vint 3000000000) ∧
      (python_to_thrift (.vint 3000000000)).bind thrift_to_python =
        some (.vint 3000000000) :=
  ⟨by constructor <;> decide, C1_roundtrip (.vint 3000000000) (by constructor <;> decide)⟩

/-- C5.  Kind selection at the signed 32-bit boundary: 2147483647 and
-2147483648 encode as INTEGER; 2147483648 and -2147483649 encode as LONG. -/
theorem C5_kind_boundary :
    (python_to_thrift (.vint 2147483647)).map TObject.type = some .INTEGER ∧
    (python_to_thrift (.vint (-2147483648))).map TObject.type = some .INTEGER ∧
    (python_to_thrift (.vint 2147483648)).map TObject.type = some .LONG ∧
    (python_to_thrift (.vint (-2147483649))).map TObject.type = some .LONG := by
  refine ⟨?_, ?_, ?_, ?_⟩ <;> decide

/-- C7 counterexample.  `Link(-1)` constructs successfully (the source only
checks `isinstance(record, int)`), refuting the claim that construction fails
for every negative integer. -/
theorem C7_counterexample : Link_init (.vint (-1)) = .ok (-1) := rfl

/-- C7 amended.  `Link.__init__` accepts every integer, negative ones
included, and raises `ValueError` exactly when the argument is not an `int`
(booleans, being `int` instances in Python, are accepted as 1/0). -/
theorem C7_amended :
    (∀ r : Int, Link_init (.vint r) = .ok r) ∧
    (∀ v : PyObj, isInt v = false → Link_init v = .error (.valueError "")) := by
  constructor
  · intro r
    rfl
  · intro v hv
    cases v <;> first | rfl | simp [isInt] at hv

/-- Witness for C7 amended at concrete inputs. -/
theorem C7_amended_witness :
    Link_init (.vint (-3)) = .ok (-3) ∧ Link_init (.vstr "x") = .error (.valueError "") :=
  ⟨C7_amended.1 (-3), C7_amended.2 (.vstr "x") rfl⟩

/-- C8 counterexample.  Decoding a `TObject` whose kind is an unrecognized id
does not raise: the final `else` of `thrift_to_python` decodes the payload as
a UTF-8 string and returns it, so the claim that every unrecognized kind is a
usage error fails. -/
theorem C8_counterexample :
    thrift_to_python ⟨.text "x", .other 99⟩ = some (.vstr "x") ∧
      thrift_to_python ⟨.text "x", .other 99⟩ ≠ none := by
  constructor
  · rfl
  · intro hc
    cases hc

/-- C8 amended.  Decoding a `TObject` of any unrecognized kind falls through
to the string branch: the payload is decoded as UTF-8 and returned as a plain
string, with no error raised. -/
theorem C8_amended (n : Nat) (s : String) :
    thrift_to_python ⟨.text s, .other n⟩ = some (.vstr s) := rfl

/-! ## Deep conversion (`utils.thriftify` / `utils.pythonify`)

`thriftify` pops and reinserts each dict entry, so a dict keeps its key
iteration order; the model maps over the association list (distinct original
keys stay distinct here, so pop/reinsert is a map).  The `v` arm of the dict
loop in the source tests `isinstance(k, ...)` on the already-converted key
`k`, not on `v`; the model reproduces that test on the converted key
faithfully.  `none` propagates a raised exception. -/

mutual
def thriftify : PyObj → Option PyObj
  | .vdict es => (thriftifyPairs es).map PyObj.vdict
  | .vlist xs => (thriftifyList xs).map PyObj.vlist
  | .vtobj t => some (.vtobj t)
  | x => (python_to_thrift x).map PyObj.vtobj
def thriftifyList : PyObjs → Option PyObjs
  | .nil => some .nil
  | .cons x xs =>
      match thriftify x, thriftifyList xs with
      | some y, some ys => some (.cons y ys)
      | _, _ => none
def thriftifyPairs : PyObjPairs → Option PyObjPairs
  | .nil => some .nil
  | .cons k v rest =>
      match (if !(isDict k || isList k) then (python_to_thrift k).map PyObj.vtobj
             else thriftify k) with
      | none => none
      | some k2 =>
          match (if !(isDict k2 || isList k2) then (python_to_thrift v).map PyObj.vtobj
                 else thriftify v) with
          | none => none
          | some v2 =>
              match thriftifyPairs rest with
              | none => none
              | some r2 => some (.cons k2 v2 r2)
end

/-! `utils.pythonify`, branch for branch.  In the dict loop the source first
decodes a `bytes` key to a string and then feeds it to `pythonify`, which
returns a string unchanged; that composition is inlined in the key match. -/
mutual
def pythonify : PyObj → Option PyObj
  | .vdict es => (pythonifyPairs es).map PyObj.vdict
  | .vlist xs => (pythonifyList xs).map PyObj.vlist
  | .vtobj t => thrift_to_python t
  | .vbytes p => (pay_decode_utf8 p).map PyObj.vstr
  | x => some x
def pythonifyList : PyObjs → Option PyObjs
  | .nil => some .nil
  | .cons x xs =>
      match pythonify x, pythonifyList xs with
      | some y, some ys => some (.cons y ys)
      | _, _ => none
def pythonifyPairs : PyObjPairs → Option PyObjPairs
  | .nil => some .nil
  | .cons k v rest =>
      match (match k with
             | .vbytes p => (pay_decode_utf8 p).map PyObj.vstr
             | .vtobj t => thrift_to_python t
             | k1 => pythonify k1) with
      | none => none
      | some k2 =>
          match (match v with
                 | .vtobj t => thrift_to_python t
                 | v1 => pythonify v1) with
          | none => none
          | some v2 =>
              match pythonifyPairs rest with
              | none => none
              | some r2 => some (.cons k2 v2 r2)
end

/-- The mapping of the deep-conversion claim: Python `{"a": 1, "b": [2, 3]}`. -/
def nestedDictInput : PyObj :=
  .vdict (.cons (.vstr "a") (.vint 1)
    (.cons (.vstr "b") (.vlist (.cons (.vint 2) (.cons (.vint 3) .nil))) .nil))

/-- The mapping the claim expects back: same keys and order, with the list
leaf intact. -/
def nestedDictExpected : PyObj :=
  .vdict (.cons (.vstr "a") (.vint 1)
    (.cons (.vstr "b") (.vlist (.cons (.vint 2) (.cons (.vint 3) .nil))) .nil))

/-- What the code actually returns: the value under "b" comes back as the
string `"[2, 3]"`, because the dict loop of `thriftify` decides how to
convert `v` by testing the type of the already-converted key `k`, which is a
`TObject` by then, and therefore sends the nested list through the scalar
encoder, whose fallback stringifies it. -/
def nestedDictActual : PyObj :=
  .vdict (.cons (.vstr "a") (.vint 1)
    (.cons (.vstr "b") (.vstr "[2, 3]") .nil))

/-- C2.  Evaluating deep encode followed by deep decode at the claimed input
`{"a": 1, "b": [2, 3]}` yields `{"a": 1, "b": "[2, 3]"}`: the keys and their
order survive, but the nested list leaf does not, contradicting the claim
(and the spec text it quotes) that the scalar codec is applied to every leaf
of nested containers. -/
theorem C2_deep_roundtrip_eval :
    (thriftify nestedDictInput).bind pythonify = some nestedDictActual ∧
      nestedDictActual ≠ nestedDictExpected := by
  constructor
  · rfl
  · decide

/-! ## Keyword-argument plumbing (`utils`) -/

/-- Python `x or y`: returns `x` when `x` is truthy and `y` otherwise. -/
def pyOr (x y : PyObj) : PyObj :=
  if truthy x then x else y

/-- `kwargs.get(k)`: the stored value, or `None` when the key is absent. -/
def kwget (kwargs : List (String × PyObj)) (k : String) : PyObj :=
  match kwargs.find? (fun e => e.1 == k) with
  | some e => e.2
  | none => .vnone

/-- The `utils.kwarg_aliases` table: for each canonical key, the `or` chain
of alias lookups; unknown keys fall back to the default `lambda x: None`. -/
def kwarg_alias_lookup (key : String) (kwargs : List (String × PyObj)) : PyObj :=
  if key == "criteria" then
    pyOr (kwget kwargs "ccl") (pyOr (kwget kwargs "where") (kwget kwargs "query"))
  else if key == "timestamp" then pyOr (kwget kwargs "time") (kwget kwargs "ts")
  else if key == "username" then pyOr (kwget kwargs "user") (kwget kwargs "uname")
  else if key == "password" then pyOr (kwget kwargs "pass") (kwget kwargs "pword")
  else if key == "prefs" then
    pyOr (kwget kwargs "file")
      (pyOr (kwget kwargs "filename") (pyOr (kwget kwargs "config") (kwget kwargs "path")))
  else if key == "expected" then
    pyOr (kwget kwargs "value") (pyOr (kwget kwargs "current") (kwget kwargs "old"))
  else if key == "replacement" then
    pyOr (kwget kwargs "new") (pyOr (kwget kwargs "other") (kwget kwargs "value2"))
  else if key == "json" then kwget kwargs "data"
  else if key == "record" then kwget kwargs "id"
  else .vnone

/-- `utils.find_in_kwargs_by_alias(key, kwargs0)`:
`kwargs0.get(key) or kwarg_aliases.get(key, lambda x: None)(kwargs0)`. -/
def find_in_kwargs_by_alias (key : String) (kwargs : List (String × PyObj)) : PyObj :=
  pyOr (kwget kwargs key) (kwarg_alias_lookup key kwargs)

/-- `utils.require_kwarg(arg)` builds the `ValueError` message from the
calling function name and the argument description. -/
def require_kwarg (func arg : String) : String :=
  func ++ "() requires the " ++ arg ++ " keyword argument(s)"

/-! ## The `get` dispatch chain (`concourse.Concourse.get`) -/

deriving instance DecidableEq for Except

/-- The concrete remote signatures reachable from `Concourse.get`. -/
inductive GetCall where
  | getRecords | getRecordsTime | getRecordsTimestr
  | getKeysRecords | getKeysRecordsTime | getKeysRecordsTimestr
  | getKeysCcl | getKeysCclTime | getKeysCclTimestr
  | getKeysRecord | getKeysRecordTime | getKeysRecordTimestr
  | getCcl | getCclTime | getCclTimestr
  | getRecord
  | getKeyCcl | getKeyCclTime | getKeyCclTimestr
  | getKeyRecords | getKeyRecord | getKeyRecordsTime | getKeyRecordsTimestr
  | getKeyRecordTime | getKeyRecordTimestr
deriving DecidableEq

/-- The `elif` chain of `Concourse.get` after parameter normalization, in
source order, including the initial positional-record fixup that moves an
`int` or `list` criteria into the records slot when records is falsy. -/
def getDispatchCore (keys criteria records timestamp : PyObj) : Except String GetCall :=
  let timestr := isStr timestamp
  if (isInt criteria || isList criteria) && !truthy records then
    -- the criteria value moves into the records slot and criteria becomes None
    getDispatchChain keys .vnone criteria timestr timestamp
  else
    getDispatchChain keys criteria records timestr timestamp
where
  getDispatchChain (keys criteria records : PyObj) (timestr : Bool) (timestamp : PyObj) :
      Except String GetCall :=
    if isList records && !truthy keys && !truthy timestamp then .ok .getRecords
    else if isList records && truthy timestamp && !timestr && !truthy keys then
      .ok .getRecordsTime
    else if isList records && truthy timestamp && timestr && !truthy keys then
      .ok .getRecordsTimestr
    else if isList records && isList keys && !truthy timestamp then .ok .getKeysRecords
    else if isList records && isList keys && truthy timestamp && !timestr then
      .ok .getKeysRecordsTime
    else if isList records && isList keys && truthy timestamp && timestr then
      .ok .getKeysRecordsTimestr
    else if isList keys && truthy criteria && !truthy timestamp then .ok .getKeysCcl
    else if isList keys && truthy criteria && truthy timestamp && !timestr then
      .ok .getKeysCclTime
    else if isList keys && truthy criteria && truthy timestamp && timestr then
      .ok .getKeysCclTimestr
    else if isList keys && truthy records && !truthy timestamp then .ok .getKeysRecord
    else if isList keys && truthy records && truthy timestamp && !timestr then
      .ok .getKeysRecordTime
    else if isList keys && truthy records && truthy timestamp && timestr then
      .ok .getKeysRecordTimestr
    else if truthy criteria && !truthy keys && !truthy timestamp then .ok .getCcl
    else if truthy criteria && truthy timestamp && !timestr && !truthy keys then
      .ok .getCclTime
    else if truthy criteria && truthy timestamp && timestr && !truthy keys then
      .ok .getCclTimestr
    else if truthy records && !truthy keys && !truthy timestamp then .ok .getRecord
    else if truthy records && truthy timestamp && !timestr && !truthy keys then
      .ok .getRecordsTime
    else if truthy records && truthy timestamp && timestr && !truthy keys then
      .ok .getRecordsTimestr
    else if truthy keys && truthy criteria && !truthy timestamp then .ok .getKeyCcl
    else if truthy keys && truthy criteria && truthy timestamp && !timestr then
      .ok .getKeyCclTime
    else if truthy keys && truthy criteria && truthy timestamp && timestr then
      .ok .getKeyCclTimestr
    else if truthy keys && isList records && !truthy timestamp then .ok .getKeyRecords
    else if truthy keys && truthy records && !truthy timestamp then .ok .getKeyRecord
    else if truthy keys && isList records && truthy timestamp && !timestr then
      .ok .getKeyRecordsTime
    else if truthy keys && isList records && truthy timestamp && timestr then
      .ok .getKeyRecordsTimestr
    else if truthy keys && truthy records && truthy timestamp && !timestr then
      .ok .getKeyRecordTime
    else if truthy keys && truthy records && truthy timestamp && timestr then
      .ok .getKeyRecordTimestr
    else .error (require_kwarg "get" "criteria or (key and record)")

/-- `Concourse.get(keys, criteria, records, timestamp, **kwargs)`: the
normalization of lines 675-678 of `concourse.py` followed by the chain. -/
def getDispatch (keys criteria records timestamp : PyObj)
    (kwargs : List (String × PyObj)) : Except String GetCall :=
  getDispatchCore
    (pyOr keys (kwget kwargs "key"))
    (pyOr criteria (find_in_kwargs_by_alias "criteria" kwargs))
    (pyOr records (kwget kwargs "record"))
    (pyOr timestamp (find_in_kwargs_by_alias "timestamp" kwargs))

example :
    getDispatch .vnone .vnone (.vlist (.cons (.vint 1) .nil)) (.vint 5) [] =
      .ok .getRecordsTime := by decide
example :
    getDispatch (.vstr "k") .vnone (.vint 7) .vnone [] = .ok .getKeyRecord := by decide

/-! ## The `clear` dispatch chain (`concourse.Concourse.clear`) -/

/-- The concrete remote signatures reachable from `Concourse.clear`. -/
inductive ClearCall where
  | clearKeysRecords | clearRecords | clearKeysRecord
  | clearKeyRecords | clearKeyRecord | clearRecord
deriving DecidableEq

/-- `Concourse.clear(keys, records, **kwargs)`: normalization and chain of
lines 427-442 of `concourse.py`. -/
def clearDispatch (keys records : PyObj) (kwargs : List (String × PyObj)) :
    Except String ClearCall :=
  let keys := pyOr keys (kwget kwargs "key")
  let records := pyOr records (kwget kwargs "record")
  if isList keys && isList records then .ok .clearKeysRecords
  else if isList records && !truthy keys then .ok .clearRecords
  else if isList keys && truthy records then .ok .clearKeysRecord
  else if isList records && truthy keys then .ok .clearKeyRecords
  else if truthy keys && truthy records then .ok .clearKeyRecord
  else if truthy records then .ok .clearRecord
  else .error (require_kwarg "clear" "record or records")

/-! ## The `audit`, `chronologize` and `diff` dispatch chains -/

/-- The concrete remote signatures reachable from `Concourse.audit`. -/
inductive AuditCall where
  | auditKeyRecordStartEnd | auditKeyRecordStartstrEndstr
  | auditKeyRecordStart | auditKeyRecordStartstr | auditKeyRecord
  | auditRecordStartEnd | auditRecordStartstrEndstr
  | auditRecordStart | auditRecordStartstr | auditRecord
deriving DecidableEq

/-- `Concourse.audit(key, record, start, end, **kwargs)`: lines 276-307 of
`concourse.py`, including the positional fixup that treats an integer first
argument as the record. -/
def auditDispatch (key record start end_ : PyObj) (kwargs : List (String × PyObj)) :
    Except String AuditCall :=
  let start := pyOr start (find_in_kwargs_by_alias "timestamp" kwargs)
  let startstr := isStr start
  let endstr := isStr end_
  let record := if isInt key then key else record
  let key := if isInt key then PyObj.vnone else key
  if truthy key && truthy record && truthy start && !startstr && truthy end_ && !endstr then
    .ok .auditKeyRecordStartEnd
  else if truthy key && truthy record && truthy start && startstr && truthy end_ && endstr then
    .ok .auditKeyRecordStartstrEndstr
  else if truthy key && truthy record && truthy start && !startstr then .ok .auditKeyRecordStart
  else if truthy key && truthy record && truthy start && startstr then .ok .auditKeyRecordStartstr
  else if truthy key && truthy record then .ok .auditKeyRecord
  else if truthy record && truthy start && !startstr && truthy end_ && !endstr then
    .ok .auditRecordStartEnd
  else if truthy record && truthy start && startstr && truthy end_ && endstr then
    .ok .auditRecordStartstrEndstr
  else if truthy record && truthy start && !startstr then .ok .auditRecordStart
  else if truthy record && truthy start && startstr then .ok .auditRecordStartstr
  else if truthy record then .ok .auditRecord
  else .error (require_kwarg "audit" "record")

/-- The concrete remote signatures reachable from `Concourse.chronologize`. -/
inductive ChronCall where
  | chronologizeKeyRecordStartEnd | chronologizeKeyRecordStartstrEndstr
  | chronologizeKeyRecordStart | chronologizeKeyRecordStartstr
  | chronologizeKeyRecord
deriving DecidableEq

/-- `Concourse.chronologize(key, record, start, end, **kwargs)`: lines
384-400 of `concourse.py`; `key` and `record` are required positionals and
the chain branches only on the start/end shapes. -/
def chronologizeDispatch (start end_ : PyObj) (kwargs : List (String × PyObj)) :
    Except String ChronCall :=
  let start := pyOr start (find_in_kwargs_by_alias "timestamp" kwargs)
  let startstr := isStr start
  let endstr := isStr end_
  if truthy start && !startstr && truthy end_ && !endstr then .ok .chronologizeKeyRecordStartEnd
  else if truthy start && startstr && truthy end_ && endstr then
    .ok .chronologizeKeyRecordStartstrEndstr
  else if truthy start && !startstr then .ok .chronologizeKeyRecordStart
  else if truthy start && startstr then .ok .chronologizeKeyRecordStartstr
  else .ok .chronologizeKeyRecord

/-- The concrete remote signatures reachable from `Concourse.diff`. -/
inductive DiffCall where
  | diffKeyRecordStartEnd | diffKeyRecordStartstrEndstr
  | diffKeyRecordStart | diffKeyRecordStartstr
  | diffKeyStartEnd | diffKeyStartstrEndstr
  | diffKeyStart | diffKeyStartstr
  | diffRecordStartEnd | diffRecordStartstrEndstr
  | diffRecordStart | diffRecordStartstr
deriving DecidableEq

/-- `Concourse.diff(key, record, start, end, **kwargs)`: lines 562-593 of
`concourse.py`. -/
def diffDispatch (key record start end_ : PyObj) (kwargs : List (String × PyObj)) :
    Except String DiffCall :=
  let start := pyOr start (find_in_kwargs_by_alias "timestamp" kwargs)
  let startstr := isStr start
  let endstr := isStr end_
  if truthy key && truthy record && truthy start && !startstr && truthy end_ && !endstr then
    .ok .diffKeyRecordStartEnd
  else if truthy key && truthy record && truthy start && startstr && truthy end_ && endstr then
    .ok .diffKeyRecordStartstrEndstr
  else if truthy key && truthy record && truthy start && !startstr then .ok .diffKeyRecordStart
  else if truthy key && truthy record && truthy start && startstr then .ok .diffKeyRecordStartstr
  else if truthy key && truthy start && !startstr && truthy end_ && !endstr then
    .ok .diffKeyStartEnd
  else if truthy key && truthy start && startstr && truthy end_ && endstr then
    .ok .diffKeyStartstrEndstr
  else if truthy key && truthy start && !startstr then .ok .diffKeyStart
  else if truthy key && truthy start && startstr then .ok .diffKeyStartstr
  else if truthy record && truthy start && !startstr && truthy end_ && !endstr then
    .ok .diffRecordStartEnd
  else if truthy record && truthy start && startstr && truthy end_ && endstr then
    .ok .diffRecordStartstrEndstr
  else if truthy record && truthy start && !startstr then .ok .diffRecordStart
  else if truthy record && truthy start && startstr then .ok .diffRecordStartstr
  else .error (require_kwarg "diff" "start and (record or key)")

/-! ## `verify_and_swap` (`concourse.Concourse.verify_and_swap`)

The source resolves missing `expected`/`replacement` with
`find_in_kwargs_by_alias("expected", **kwargs)`: the keyword dict is unpacked
into the call, yet `find_in_kwargs_by_alias` declares only the two positional
parameters `key` and `kwargs0`.  With `kwargs` empty, Python raises
`TypeError` for the missing `kwargs0` argument; with any keyword not named
`kwargs0` it raises `TypeError` for an unexpected keyword.  None of the
documented aliases is named `kwargs0`, so within this model the lookup always
raises.  (A caller passing a keyword literally named `kwargs0` would bind a
scalar where a dict is expected and fail on `.get`; that pathological call
shape is outside the model.) -/

/-- `find_in_kwargs_by_alias(key, **kwargs)` as written in
`verify_and_swap`: a `TypeError`, as explained above. -/
def splat_find_in_kwargs_by_alias (_key : String) (_kwargs : List (String × PyObj)) :
    Except PyErr PyObj :=
  .error .typeError

/-- Thrift structs define neither `__bool__` nor `__len__`, so a `TObject`
is always truthy. -/
def truthyTObject (_t : TObject) : Bool := true

/-- `Concourse.verify_and_swap(key, expected, record, replacement, **kwargs)`
(lines 1123-1140): alias resolution for falsy `expected`/`replacement`,
scalar encoding of both, then the four-way presence guard, with
`require_kwarg` in the failure arm.  A raised `struct.error` from the
encoder is surfaced as a `ValueError`-like error here only in so far as it
aborts the call; the claims only exercise the alias-resolution path. -/
def verify_and_swap (key expected record replacement : PyObj)
    (kwargs : List (String × PyObj)) : Except PyErr Unit :=
  match (if truthy expected then .ok expected
         else splat_find_in_kwargs_by_alias "expected" kwargs) with
  | .error e => .error e
  | .ok expected0 =>
    match (if truthy replacement then .ok replacement
           else splat_find_in_kwargs_by_alias "replacement" kwargs) with
    | .error e => .error e
    | .ok replacement0 =>
      match python_to_thrift expected0 with
      | none => .error (.valueError "struct error")
      | some expectedT =>
        match python_to_thrift replacement0 with
        | none => .error (.valueError "struct error")
        | some replacementT =>
          if truthy key && truthyTObject expectedT && truthy record &&
              truthyTObject replacementT then
            .ok ()
          else .error (.valueError (require_kwarg "verify_and_swap"
            "key, expected, record and replacement"))

/-! ## Result shaping of `audit` and `chronologize`

Both operations return an i64-keyed thrift map; `audit` runs `pythonify` on
the result and then `OrderedDict(sorted(data.items()))`, while `chronologize`
sorts first and runs `pythonify` on the sorted dict.  The models below are
the dict loop of `pythonify` specialized to integer-keyed association lists
(integer keys pass through `pythonify` unchanged) and Python `sorted` on the
item tuples, which for the unique keys of a dict is a stable sort by key. -/

/-- The value conversion of the `pythonify` dict loop:
`thrift_to_python(v) if isinstance(v, TObject) else pythonify(v)`. -/
def pyconvVal (v : PyObj) : Option PyObj :=
  match v with
  | .vtobj t => thrift_to_python t
  | v1 => pythonify v1

/-- The `pythonify` dict loop over an integer-keyed association list. -/
def pythonifyIntKeyedVals : List (Int × PyObj) → Option (List (Int × PyObj))
  | [] => some []
  | (k, v) :: rest =>
      match pyconvVal v, pythonifyIntKeyedVals rest with
      | some v2, some r2 => some ((k, v2) :: r2)
      | _, _ => none

/-- Comparison by timestamp key, the order `sorted` uses on dict items with
unique keys. -/
def keyLE (a b : Int × PyObj) : Prop := a.1 ≤ b.1

instance : DecidableRel keyLE := fun a b => Int.decLe a.1 b.1

instance : IsTotal (Int × PyObj) keyLE := ⟨fun a b => le_total a.1 b.1⟩

instance : IsTrans (Int × PyObj) keyLE := ⟨fun _ _ _ h1 h2 => le_trans h1 h2⟩

/-- `OrderedDict(sorted(data.items()))` over an integer-keyed association
list. -/
def sortByKey (l : List (Int × PyObj)) : List (Int × PyObj) :=
  List.insertionSort keyLE l

/-- `Concourse.audit` result shaping (lines 308-310): `pythonify`, then
sort. -/
def audit_result (wire : List (Int × PyObj)) : Option (List (Int × PyObj)) :=
  (pythonifyIntKeyedVals wire).map sortByKey

/-- `Concourse.chronologize` result shaping (lines 401-402): sort, then
`pythonify`. -/
def chron_result (wire : List (Int × PyObj)) : Option (List (Int × PyObj)) :=
  pythonifyIntKeyedVals (sortByKey wire)

theorem pythonifyIntKeyedVals_keys (l out : List (Int × PyObj))
    (h : pythonifyIntKeyedVals l = some out) : out.map Prod.fst = l.map Prod.fst := by
  induction l generalizing out with
  | nil =>
      simp [pythonifyIntKeyedVals] at h
      simp [← h]
  | cons kv rest ih =>
      obtain ⟨k, v⟩ := kv
      simp only [pythonifyIntKeyedVals] at h
      cases hv : pyconvVal v with
      | none => rw [hv] at h; cases h
      | some v2 =>
          cases hr : pythonifyIntKeyedVals rest with
          | none => rw [hv, hr] at h; cases h
          | some r2 =>
              rw [hv, hr] at h
              cases h
              simp [ih r2 hr]

theorem sorted_keys_of_sorted (l : List (Int × PyObj)) (h : l.Sorted keyLE) :
    (l.map Prod.fst).Sorted (· ≤ ·) :=
  List.Pairwise.map Prod.fst (fun _ _ hab => hab) h

/-- C6.  For both `audit` and `chronologize`, whenever the result shaping
succeeds, the delivered mapping is ordered by ascending timestamp key and its
keys are a permutation of the wire keys, regardless of wire order. -/
theorem C6_results_sorted :
    (∀ wire out, audit_result wire = some out →
        (out.map Prod.fst).Sorted (· ≤ ·) ∧ (out.map Prod.fst).Perm (wire.map Prod.fst)) ∧
    (∀ wire out, chron_result wire = some out →
        (out.map Prod.fst).Sorted (· ≤ ·) ∧ (out.map Prod.fst).Perm (wire.map Prod.fst)) := by
  constructor
  · intro wire out h
    simp only [audit_result, Option.map_eq_some'] at h
    obtain ⟨mid, hmid, hout⟩ := h
    subst hout
    constructor
    · exact sorted_keys_of_sorted _ (List.sorted_insertionSort keyLE mid)
    · have hperm : (sortByKey mid).Perm mid := List.perm_insertionSort keyLE mid
      have := hperm.map Prod.fst
      rw [pythonifyIntKeyedVals_keys wire mid hmid] at this
      exact this
  · intro wire out h
    have hkeys := pythonifyIntKeyedVals_keys _ _ h
    constructor
    · rw [hkeys]
      exact sorted_keys_of_sorted _ (List.sorted_insertionSort keyLE wire)
    · rw [hkeys]
      exact (List.perm_insertionSort keyLE wire).map Prod.fst

/-- Witness for C6 at a concrete out-of-order wire result. -/
theorem C6_results_sorted_witness :
    audit_result [(5, .vstr "b"), (3, .vstr "a")] = some [(3, .vstr "a"), (5, .vstr "b")] ∧
      (([(3, .vstr "a"), (5, .vstr "b")] : List (Int × PyObj)).map Prod.fst).Sorted (· ≤ ·) ∧
      (([(3, .vstr "a"), (5, .vstr "b")] : List (Int × PyObj)).map Prod.fst).Perm
        (([(5, .vstr "b"), (3, .vstr "a")] : List (Int × PyObj)).map Prod.fst) :=
  ⟨by decide, C6_results_sorted.1 [(5, .vstr "b"), (3, .vstr "a")]
    [(3, .vstr "a"), (5, .vstr "b")] (by decide)⟩

/-! ## Dispatcher claims -/

theorem pyOr_falsy {p : PyObj} (h : truthy p = false) (y : PyObj) : pyOr p y = y := by
  simp [pyOr, h]

/-- C3 counterexample.  With a batch records parameter and the numeric
timestamp 0 supplied, `get` dispatches the records-only signature
`getRecords` (the `or` chain drops the falsy timestamp), and with an empty
batch and a nonzero timestamp it matches no signature at all; both refute
the claim as stated for arbitrary supplied numeric timestamps and batches. -/
theorem C3_counterexample :
    getDispatch .vnone .vnone (.vlist (.cons (.vint 1) .nil)) (.vint 0) [] =
        .ok .getRecords ∧
      getDispatch .vnone .vnone (.vlist .nil) (.vint 5) [] =
        .error "get() requires the criteria or (key and record) keyword argument(s)" := by
  constructor <;> decide

/-- C3 amended.  With a non-empty batch records parameter and a nonzero
numeric timestamp supplied (and no keys or criteria), `get` dispatches
`getRecordsTime`, never `getRecords`: the records+timestamp predicate is
tested before the records-only one could otherwise match. -/
theorem C3_amended (r : PyObj) (rs : PyObjs) (t : Int) (ht : t ≠ 0) :
    getDispatch .vnone .vnone (.vlist (.cons r rs)) (.vint t) [] =
      .ok .getRecordsTime ∧
    getDispatch .vnone .vnone (.vlist (.cons r rs)) (.vint t) [] ≠
      .ok .getRecords := by
  have htb : (t != 0) = true := by simp [ht]
  constructor
  · simp [getDispatch, getDispatchCore, getDispatchCore.getDispatchChain, pyOr,
      find_in_kwargs_by_alias, kwarg_alias_lookup, kwget, truthy, isStr, isList, isInt, htb]
  · simp [getDispatch, getDispatchCore, getDispatchCore.getDispatchChain, pyOr,
      find_in_kwargs_by_alias, kwarg_alias_lookup, kwget, truthy, isStr, isList, isInt, htb]

/-- Witness for C3 amended at a concrete batch and timestamp. -/
theorem C3_amended_witness :
    getDispatch .vnone .vnone (.vlist (.cons (.vint 1) .nil)) (.vint 5) [] =
      .ok .getRecordsTime :=
  (C3_amended (.vint 1) .nil 5 (by decide)).1

/-- C4.  Evaluating the two cited operations at insufficient parameter
combinations: `clear()` with neither key(s) nor record(s) does raise the
`require_kwarg` `ValueError` before any remote call, but `verify_and_swap()`
with missing parameters raises `TypeError` instead, because the source calls
`find_in_kwargs_by_alias("expected", **kwargs)`, unpacking the keyword dict
into a function that expects it as a single positional argument.  The claim
that a `UsageError` covers `verify_and_swap` with missing required
parameters therefore fails on the code. -/
theorem C4_usage_error_eval :
    verify_and_swap .vnone .vnone .vnone .vnone [] = .error .typeError ∧
      (∀ m, PyErr.typeError ≠ .valueError m) ∧
      clearDispatch .vnone .vnone [] =
        .error "clear() requires the record or records keyword argument(s)" := by
  refine ⟨rfl, fun m h => ?_, by decide⟩
  cases h

theorem getDispatchCore_falsy_records (keys criteria timestamp p : PyObj)
    (hp : truthy p = false) (hl : isList p = false) :
    getDispatchCore keys criteria p timestamp = getDispatchCore keys criteria .vnone timestamp := by
  simp only [getDispatchCore, getDispatchCore.getDispatchChain, hp, hl,
    show truthy PyObj.vnone = false from rfl, show isList PyObj.vnone = false from rfl]

theorem getDispatchCore_falsy_keys (criteria records timestamp p : PyObj)
    (hp : truthy p = false) (hl : isList p = false) :
    getDispatchCore p criteria records timestamp = getDispatchCore .vnone criteria records timestamp := by
  simp only [getDispatchCore, getDispatchCore.getDispatchChain, hp, hl,
    show truthy PyObj.vnone = false from rfl, show isList PyObj.vnone = false from rfl]

/-- C9 counterexample.  The claim fails for an empty list supplied through
the `key`/`record` kwarg fallback: `clear(record=[])` dispatches
`clearRecords` where absence raises the usage error, and
`get(key=[], record=5)` dispatches `getKeysRecord` where absence gives
`getRecord`; `None or []` keeps the empty list and the
`isinstance(..., list)` predicates then treat it as present. -/
theorem C9_counterexample :
    clearDispatch .vnone .vnone [("record", .vlist .nil)] = .ok .clearRecords ∧
    clearDispatch .vnone .vnone [] =
      .error "clear() requires the record or records keyword argument(s)" ∧
    getDispatch .vnone .vnone .vnone .vnone [("key", .vlist .nil), ("record", .vint 5)] =
      .ok .getKeysRecord ∧
    getDispatch .vnone .vnone .vnone .vnone [("record", .vint 5)] = .ok .getRecord ∧
    getDispatch .vnone .vnone .vnone .vnone [("record", .vlist .nil)] = .ok .getRecords := by
  refine ⟨?_, ?_, ?_, ?_, ?_⟩ <;> decide

/-- C9 amended.  A falsy value supplied positionally for a dispatch
parameter (0, False, empty string, empty list) is treated as absent: the
`or`-chain normalization replaces it before any predicate is tested, for
each of the four `get` slots and both `clear` slots; alias lookup likewise
skips falsy entries (here `ccl`).  A falsy value arriving through the
`kwargs.get` fallback of the `key`/`record` slots lands in the slot
unfiltered, but every non-list falsy value (0, False, empty string) still
dispatches exactly as an absent parameter there, because those slots are
subsequently tested only by truthiness and `isinstance(..., list)`.  The
sole exception, established by the counterexample, is an empty list supplied
via those kwargs, which the `isinstance(..., list)` predicates treat as
present. -/
theorem C9_amended (p : PyObj) (hp : truthy p = false) :
    (∀ criteria records timestamp kwargs,
        getDispatch p criteria records timestamp kwargs =
          getDispatch .vnone criteria records timestamp kwargs) ∧
    (∀ keys records timestamp kwargs,
        getDispatch keys p records timestamp kwargs =
          getDispatch keys .vnone records timestamp kwargs) ∧
    (∀ keys criteria timestamp kwargs,
        getDispatch keys criteria p timestamp kwargs =
          getDispatch keys criteria .vnone timestamp kwargs) ∧
    (∀ keys criteria records kwargs,
        getDispatch keys criteria records p kwargs =
          getDispatch keys criteria records .vnone kwargs) ∧
    (∀ records kwargs, clearDispatch p records kwargs = clearDispatch .vnone records kwargs) ∧
    (∀ keys kwargs, clearDispatch keys p kwargs = clearDispatch keys .vnone kwargs) ∧
    find_in_kwargs_by_alias "criteria" [("ccl", p)] = .vnone ∧
    (isList p = false → ∀ keys criteria timestamp,
        getDispatch keys criteria .vnone timestamp [("record", p)] =
          getDispatch keys criteria .vnone timestamp []) ∧
    (isList p = false → ∀ criteria records timestamp,
        getDispatch .vnone criteria records timestamp [("key", p)] =
          getDispatch .vnone criteria records timestamp []) ∧
    (isList p = false → ∀ keys,
        clearDispatch keys .vnone [("record", p)] = clearDispatch keys .vnone []) ∧
    (isList p = false → ∀ records,
        clearDispatch .vnone records [("key", p)] = clearDispatch .vnone records []) := by
  have hnone : truthy .vnone = false := rfl
  have hlnone : isList .vnone = false := rfl
  refine ⟨?_, ?_, ?_, ?_, ?_, ?_, ?_, ?_, ?_, ?_, ?_⟩
  · intro criteria records timestamp kwargs
    simp only [getDispatch, pyOr_falsy hp, pyOr_falsy hnone]
  · intro keys records timestamp kwargs
    simp only [getDispatch, pyOr_falsy hp, pyOr_falsy hnone]
  · intro keys criteria timestamp kwargs
    simp only [getDispatch, pyOr_falsy hp, pyOr_falsy hnone]
  · intro keys criteria records kwargs
    simp only [getDispatch, pyOr_falsy hp, pyOr_falsy hnone]
  · intro records kwargs
    simp only [clearDispatch, pyOr_falsy hp, pyOr_falsy hnone]
  · intro keys kwargs
    simp only [clearDispatch, pyOr_falsy hp, pyOr_falsy hnone]
  · simp [find_in_kwargs_by_alias, kwarg_alias_lookup, kwget, pyOr_falsy hp, pyOr, hp]
  · intro hl keys criteria timestamp
    show getDispatchCore (pyOr keys .vnone) (pyOr criteria .vnone) p (pyOr timestamp .vnone) =
      getDispatchCore (pyOr keys .vnone) (pyOr criteria .vnone) .vnone (pyOr timestamp .vnone)
    exact getDispatchCore_falsy_records _ _ _ p hp hl
  · intro hl criteria records timestamp
    show getDispatchCore p (pyOr criteria .vnone) (pyOr records .vnone) (pyOr timestamp .vnone) =
      getDispatchCore .vnone (pyOr criteria .vnone) (pyOr records .vnone) (pyOr timestamp .vnone)
    exact getDispatchCore_falsy_keys _ _ _ p hp hl
  · intro hl keys
    simp only [clearDispatch,
      show kwget [("record", p)] "key" = .vnone from rfl,
      show kwget [("record", p)] "record" = p from rfl,
      show kwget ([] : List (String × PyObj)) "key" = .vnone from rfl,
      show kwget ([] : List (String × PyObj)) "record" = .vnone from rfl,
      pyOr_falsy hnone, hp, hl,
      show truthy PyObj.vnone = false from rfl, show isList PyObj.vnone = false from rfl]
  · intro hl records
    simp only [clearDispatch,
      show kwget [("key", p)] "key" = p from rfl,
      show kwget [("key", p)] "record" = .vnone from rfl,
      show kwget ([] : List (String × PyObj)) "key" = .vnone from rfl,
      show kwget ([] : List (String × PyObj)) "record" = .vnone from rfl,
      pyOr_falsy hnone, hp, hl,
      show truthy PyObj.vnone = false from rfl, show isList PyObj.vnone = false from rfl]

/-- Witness for C9 amended: `get(key="name", record=0)` dispatches exactly
as `get(key="name")`, a positional timestamp of 0 dispatches as no
timestamp, and `get(record=0)` through the kwarg fallback dispatches as no
record. -/
theorem C9_amended_witness :
    getDispatch (.vstr "name") .vnone (.vint 0) .vnone [] =
        getDispatch (.vstr "name") .vnone .vnone .vnone [] ∧
      getDispatch (.vstr "name") .vnone (.vint 7) (.vint 0) [] =
        getDispatch (.vstr "name") .vnone (.vint 7) .vnone [] ∧
      getDispatch (.vstr "name") .vnone .vnone .vnone [("record", .vint 0)] =
        getDispatch (.vstr "name") .vnone .vnone .vnone [] :=
  ⟨(C9_amended (.vint 0) (by decide)).2.2.1 (.vstr "name") .vnone .vnone [],
   (C9_amended (.vint 0) (by decide)).2.2.2.1 (.vstr "name") .vnone (.vint 7) [],
   (C9_amended (.vint 0) (by decide)).2.2.2.2.2.2.2.1 (by decide) (.vstr "name") .vnone .vnone⟩

/-- C10.  In `audit`, `chronologize` and `diff`, a truthy numeric start with
a truthy string end (and vice versa) raises no usage error: both mixed-shape
combinations fall through to the corresponding start-only signature, and the
end parameter is silently ignored. -/
theorem C10_mixed_start_end (k es ss : String) (r sn en : Int)
    (hk : k ≠ "") (hr : r ≠ 0) (hsn : sn ≠ 0) (hss : ss ≠ "") (hes : es ≠ "") (hen : en ≠ 0) :
    auditDispatch (.vstr k) (.vint r) (.vint sn) (.vstr es) [] = .ok .auditKeyRecordStart ∧
    auditDispatch (.vstr k) (.vint r) (.vstr ss) (.vint en) [] = .ok .auditKeyRecordStartstr ∧
    chronologizeDispatch (.vint sn) (.vstr es) [] = .ok .chronologizeKeyRecordStart ∧
    chronologizeDispatch (.vstr ss) (.vint en) [] = .ok .chronologizeKeyRecordStartstr ∧
    diffDispatch (.vstr k) (.vint r) (.vint sn) (.vstr es) [] = .ok .diffKeyRecordStart ∧
    diffDispatch (.vstr k) (.vint r) (.vstr ss) (.vint en) [] = .ok .diffKeyRecordStartstr := by
  have hkb : (k != "") = true := by simp [hk]
  have hrb : (r != 0) = true := by simp [hr]
  have hsnb : (sn != 0) = true := by simp [hsn]
  have hssb : (ss != "") = true := by simp [hss]
  have hesb : (es != "") = true := by simp [hes]
  have henb : (en != 0) = true := by simp [hen]
  refine ⟨?_, ?_, ?_, ?_, ?_, ?_⟩ <;>
    simp [auditDispatch, chronologizeDispatch, diffDispatch, pyOr,
      find_in_kwargs_by_alias, kwarg_alias_lookup, kwget, truthy, isStr, isInt,
      hkb, hrb, hsnb, hssb, hesb, henb]

/-- Witness for C10 at concrete mixed-shape inputs. -/
theorem C10_mixed_start_end_witness :
    auditDispatch (.vstr "k") (.vint 1) (.vint 2) (.vstr "yesterday") [] =
        .ok .auditKeyRecordStart ∧
      diffDispatch (.vstr "k") (.vint 1) (.vstr "yesterday") (.vint 9) [] =
        .ok .diffKeyRecordStartstr :=
  ⟨(C10_mixed_start_end "k" "yesterday" "s" 1 2 9 (by decide) (by decide) (by decide)
      (by decide) (by decide) (by decide)).1,
   (C10_mixed_start_end "k" "e" "yesterday" 1 2 9 (by decide) (by decide) (by decide)
      (by decide) (by decide) (by decide)).2.2.2.2.2⟩
